import Mathlib

/-!
# Verification of the natural-language-to-SQL agent

Shallow embedding of the two orchestration scripts of the repository
(`agent.py`, the LangGraph command-line pipeline, and `app.py`, the
Streamlit web page) together with proofs about the claims of the
specification.

Strings are modelled as `List Char`; the Python string operations the
scripts use (`in`, `split`, `[-1]`, `[0]`, `strip`, `lower`, `re.sub` on
the fixed pattern) are embedded as executable functions below.  The two
external collaborators (the LLM client and the database execution tool)
are modelled as oracles: functions from the text they are given to either
a successful text response (`Except.ok`) or a raised exception carrying a
message (`Except.error`).
-/

namespace SqlAgent

/-- Python `sep in s` for a list of characters: `true` iff `sep` occurs as
a contiguous subsequence of `s`.  (Python's `"" in s` is `True`, matched
by `isPrefixOf` of the empty list.) -/
def pyContains (sep : List Char) : List Char → Bool
  | [] => sep.isPrefixOf ([] : List Char)
  | c :: t => sep.isPrefixOf (c :: t) || pyContains sep t

/-- Fuel-driven worker for `pySplit`, structurally recursive on the fuel so
that concrete instances compute by kernel reduction.  One unit of fuel is
spent per step, and every step consumes at least one character, so fuel
`s.length` is always enough. -/
def pySplitF (sep : List Char) : Nat → List Char → List (List Char)
  | 0, s => [s]
  | fuel + 1, s =>
    if sep ≠ [] ∧ sep.isPrefixOf s then
      [] :: pySplitF sep fuel (s.drop sep.length)
    else
      match s with
      | [] => [[]]
      | c :: t =>
        match pySplitF sep fuel t with
        | [] => [[c]]
        | u :: us => (c :: u) :: us

/-- Python `s.split(sep)` for a non-empty separator: the maximal chunks of
`s` between non-overlapping left-to-right occurrences of `sep`. -/
def pySplit (sep s : List Char) : List (List Char) :=
  pySplitF sep s.length s

/-- Python `s.strip()`: drop whitespace from both ends. -/
def pyStrip (l : List Char) : List Char :=
  ((l.dropWhile Char.isWhitespace).reverse.dropWhile Char.isWhitespace).reverse

/-- Python `s.lower()` (the scripts only ever compare ASCII input). -/
def pyLower (l : List Char) : List Char :=
  l.map Char.toLower

/-- The prefix of `s` strictly before the first occurrence of `sep`
(`s` itself when `sep` does not occur). -/
def beforeFirst (sep : List Char) : List Char → List Char
  | [] => []
  | c :: t =>
    if sep ≠ [] ∧ sep.isPrefixOf (c :: t) then []
    else c :: beforeFirst sep t

/-- The suffix of `s` strictly after the first occurrence of `sep`
(`[]` when `sep` does not occur). -/
def afterFirst (sep : List Char) : List Char → List Char
  | [] => []
  | c :: t =>
    if sep ≠ [] ∧ sep.isPrefixOf (c :: t) then (c :: t).drop sep.length
    else afterFirst sep t

end SqlAgent

namespace SqlAgent

/-- The ```sql fence-opening marker the scripts search for. -/
def sqlFence : List Char := "```sql".data

/-- The plain ``` fence marker. -/
def fence : List Char := "```".data

/-- Fallback free-text cleaning shared verbatim by `agent.py` (`write_query`,
lines 71-75) and `app.py` (`generate_sql`, lines 42-45):

    if "```sql" in content:
        clean_query = content.split("```sql")[-1].split("```")[0].strip()
    else:
        clean_query = content.strip()
-/
def cleanQuery (content : List Char) : List Char :=
  if pyContains sqlFence content then
    pyStrip ((pySplit fence ((pySplit sqlFence content).getLastD [])).headD [])
  else
    pyStrip content

/-- The literal `<think>` marker. -/
def thinkOpen : List Char := "<think>".data

/-- The literal `</think>` marker. -/
def thinkClose : List Char := "</think>".data

/-- Fuel-driven worker for `removeThink`: one unit of fuel per step, every
step consumes at least one character. -/
def removeThinkF : Nat → List Char → List Char
  | 0, l => l
  | _ + 1, [] => []
  | fuel + 1, c :: t =>
    if thinkClose.isPrefixOf (c :: t) then
      removeThinkF fuel ((c :: t).drop thinkClose.length)
    else if thinkOpen.isPrefixOf (c :: t) then
      removeThinkF fuel ((c :: t).drop thinkOpen.length)
    else
      c :: removeThinkF fuel t

/-- Python `re.sub(r'<\/?think>', '', content)` from `app.py` line 77: a
single left-to-right pass deleting each non-overlapping occurrence of
`<think>` or `</think>`; the output is never rescanned. -/
def removeThink (l : List Char) : List Char :=
  removeThinkF l.length l

/-- Python truthiness of an optional string: `None` and `""` are falsy. -/
def pyTruthy : Option (List Char) → Bool
  | none => false
  | some s => !s.isEmpty

end SqlAgent

namespace Agent

open SqlAgent

/-- `agent.py` `State` (lines 34-38): the accumulating pipeline state.  A
field is `none` while its key is still absent from the LangGraph state
dictionary. -/
structure State where
  question : List Char
  query : Option (List Char)
  result : Option (List Char)
  answer : Option (List Char)
deriving DecidableEq, Repr

/-- The external collaborators of `agent.py`, as oracles on the text they
receive.  `structured` is the `with_structured_output` call (returning the
`query` field of the decoded object, or raising); `freeContent` is the
`response.content` of the plain `llm.invoke` used by the fallback;
`dbExec` is `QuerySQLDatabaseTool.invoke`; `answerLLM` is the `llm.invoke`
of the answer stage.  Each oracle is keyed by the question or prompt text
the script passes it. -/
structure Oracles where
  structured : List Char → Except (List Char) (List Char)
  freeContent : List Char → List Char
  dbExec : List Char → Except (List Char) (List Char)
  answerLLM : List Char → Except (List Char) (List Char)

/-- The query text computed by `write_query` (lines 61-75): the structured
attempt first, and on any exception the free-text fallback. -/
def writtenQuery (o : Oracles) (question : List Char) : List Char :=
  match o.structured question with
  | .ok q => q
  | .error _ => cleanQuery (o.freeContent question)

/-- `agent.py` `write_query` as a LangGraph node: returns `{"query": ...}`,
which the graph merges into the state, leaving every other key unchanged. -/
def write_query (o : Oracles) (s : State) : State :=
  { s with query := some (writtenQuery o s.question) }

/-- The result text computed by `execute_query` (lines 81-85): the tool
output, or the error string built in the `except` branch.  (The `query`
key is always present when this node runs.) -/
def executedResult (o : Oracles) (query : List Char) : List Char :=
  match o.dbExec query with
  | .ok r => r
  | .error e => "Error executing query: ".data ++ e

/-- `agent.py` `execute_query` as a LangGraph node. -/
def execute_query (o : Oracles) (s : State) : State :=
  { s with result := some (executedResult o (s.query.getD [])) }

/-- The prompt string built by `generate_answer` (lines 90-96). -/
def answerPrompt (question query result : List Char) : List Char :=
  ("Given the following user question, corresponding SQL query, " ++
    "and SQL result, answer the user question.\n\n").data ++
  "Question: ".data ++ question ++ "\n".data ++
  "SQL Query: ".data ++ query ++ "\n".data ++
  "SQL Result: ".data ++ result

/-- The answer text computed by `generate_answer` (lines 97-101): the model
content, or the error string built in the `except` branch. -/
def answerText (o : Oracles) (question query result : List Char) : List Char :=
  match o.answerLLM (answerPrompt question query result) with
  | .ok content => content
  | .error e => "Error generating answer: ".data ++ e

/-- `agent.py` `generate_answer` as a LangGraph node. -/
def generate_answer (o : Oracles) (s : State) : State :=
  { s with
    answer := some (answerText o s.question (s.query.getD []) (s.result.getD [])) }

/-- The state a run starts from: `graph.stream({"question": question})`. -/
def initState (question : List Char) : State :=
  ⟨question, none, none, none⟩

/-- The plain compiled graph (lines 104-113): the three nodes in sequence
from the entry point. -/
def runPipeline (o : Oracles) (question : List Char) : State :=
  generate_answer o (execute_query o (write_query o (initState question)))

/-- `write_query` instrumented with the number of fallback LLM invocations
its run performs: the `except` branch (lines 66-75) is entered exactly when
the structured attempt raises, and it calls `llm.invoke` exactly once. -/
def writeQueryTrace (o : Oracles) (question : List Char) : List Char × Nat :=
  match o.structured question with
  | .ok q => (q, 0)
  | .error _ => (cleanQuery (o.freeContent question), 1)

/-- Observable outcome of one `human_in_the_loop` run: the checkpoint the
graph persists at the interrupt, the state held by the checkpointer when
the run ends, whether each of the two remaining nodes ran, and the
cancellation message, if printed. -/
structure FlowTrace where
  checkpoint : State
  finalState : State
  ranExecute : Bool
  ranAnswer : Bool
  cancelMessage : Option (List Char)
deriving DecidableEq, Repr

/-- `agent.py` `human_in_the_loop` (lines 132-169) over the graph compiled
with `interrupt_before=["execute_query"]` (line 130).  Modelled from the
spec for the workflow library's part: streaming runs `write_query`, halts
at the interrupt and persists the state, retrievable by the thread id; on
`input(...).lower() == "yes"` the stream resumes through `execute_query`
and `generate_answer`; on any other input nothing further runs and
`"Execution cancelled by user."` is printed. -/
def human_in_the_loop (o : Oracles) (question approval : List Char) :
    FlowTrace :=
  let s1 := write_query o (initState question)
  if pyLower approval = "yes".data then
    ⟨s1, generate_answer o (execute_query o s1), true, true, none⟩
  else
    ⟨s1, s1, false, false, some "Execution cancelled by user.".data⟩

end Agent

namespace App

open SqlAgent

/-- The external collaborators of `app.py`: `llmSql` is the `llm.invoke` of
`generate_sql` keyed by the question, `dbExec` is
`QuerySQLDatabaseTool.invoke` keyed by the query, and `llmAnswer` is the
`llm.invoke` of `generate_answer` keyed by the result text it is shown. -/
structure Oracles where
  llmSql : List Char → Except (List Char) (List Char)
  dbExec : List Char → Except (List Char) (List Char)
  llmAnswer : List Char → Except (List Char) (List Char)

/-- `app.py` `generate_sql` (lines 27-51): the cleaned model content, or
`None` after reporting the error to the UI when anything in the `try`
block raises. -/
def generate_sql (resp : Except (List Char) (List Char)) :
    Option (List Char) :=
  match resp with
  | .ok content => some (cleanQuery content)
  | .error _ => none

/-- `app.py` `execute_sql` (lines 53-60): the tool output, or `None` after
reporting the error to the UI when the tool raises. -/
def execute_sql (resp : Except (List Char) (List Char)) :
    Option (List Char) :=
  match resp with
  | .ok r => some r
  | .error _ => none

/-- `app.py` `generate_answer` (lines 62-81): the model content with the
literal think tags removed and trimmed, or `None` after reporting the
error to the UI when the model raises. -/
def generate_answer (resp : Except (List Char) (List Char)) :
    Option (List Char) :=
  match resp with
  | .ok content => some (pyStrip (removeThink content))
  | .error _ => none

/-- Observable outcome of one run of the module-level question handler. -/
structure WebTrace where
  sql : Option (List Char)
  result : Option (List Char)
  answer : Option (List Char)
  ranExecute : Bool
  ranAnswer : Bool
deriving DecidableEq, Repr

/-- `app.py` module-level question handler (lines 150-173): each stage
output is truth-tested (`if question:`, `if sql_query:`, `if result:`,
`if answer:`) before the next stage runs. -/
def handler (o : Oracles) (question : List Char) : WebTrace :=
  if question ≠ [] then
    let sql := generate_sql (o.llmSql question)
    if pyTruthy sql then
      let res := execute_sql (o.dbExec (sql.getD []))
      if pyTruthy res then
        ⟨sql, res, generate_answer (o.llmAnswer (res.getD [])), true, true⟩
      else
        ⟨sql, res, none, true, false⟩
    else
      ⟨sql, none, none, false, false⟩
  else
    ⟨none, none, none, false, false⟩

end App

namespace SqlAgent

/-- Modelled from the spec's words for claim C1 only: "if the response
contains at least one ```sql fenced block, the returned query is the
enclosed text of the first such fenced block, trimmed; otherwise the
returned query is the full response text, trimmed".  To be compared with
`cleanQuery`, which embeds the source. -/
def firstBlockQuery (content : List Char) : List Char :=
  if pyContains sqlFence content then
    pyStrip (beforeFirst fence (afterFirst sqlFence content))
  else
    pyStrip content

theorem pySplitF_ne_nil (sep : List Char) :
    ∀ (fuel : Nat) (s : List Char), pySplitF sep fuel s ≠ [] := by
  intro fuel
  induction fuel with
  | zero => intro s; simp [pySplitF]
  | succ n ih =>
      intro s
      by_cases h : sep ≠ [] ∧ sep.isPrefixOf s
      · simp [pySplitF, h]
      · cases s with
        | nil => simp [pySplitF, h]
        | cons c t =>
            simp only [pySplitF, if_neg h]
            cases hrec : pySplitF sep n t with
            | nil => simp
            | cons u us => simp

theorem prefix_of_isPrefixOf {l₁ l₂ : List Char} (h : l₁.isPrefixOf l₂) :
    l₁ <+: l₂ := by
  simpa using h

theorem isPrefixOf_of_ne_not_contains {sep s : List Char}
    (h : pyContains sep s = false) : sep.isPrefixOf s = false := by
  cases s with
  | nil => simpa [pyContains] using h
  | cons c t =>
      simp only [pyContains, Bool.or_eq_false_iff] at h
      exact h.1

theorem beforeFirst_isPre (sep : List Char) :
    ∀ s : List Char, beforeFirst sep s <+: s := by
  intro s
  induction s with
  | nil => simp [beforeFirst]
  | cons c t ih =>
      by_cases h : sep ≠ [] ∧ sep.isPrefixOf (c :: t)
      · simp [beforeFirst, h]
      · obtain ⟨r, hr⟩ := ih
        refine ⟨r, ?_⟩
        simp only [beforeFirst]
        rw [if_neg h]
        simp [hr]

theorem pyStrip_isInfix (l : List Char) : pyStrip l <:+: l := by
  have h1 : l.dropWhile Char.isWhitespace <:+ l := List.dropWhile_suffix _
  have h2 : (l.dropWhile Char.isWhitespace).reverse.dropWhile
      Char.isWhitespace <:+ (l.dropWhile Char.isWhitespace).reverse :=
    List.dropWhile_suffix _
  have h3 : pyStrip l <+: l.dropWhile Char.isWhitespace := by
    apply List.reverse_suffix.mp
    simpa [pyStrip] using h2
  exact h3.isInfix.trans h1.isInfix

theorem pyContains_iff_isInfix {sep : List Char} :
    ∀ {s : List Char}, pyContains sep s = true ↔ sep <:+: s := by
  intro s
  induction s with
  | nil => simp [pyContains]
  | cons c t ih =>
      simp only [pyContains, Bool.or_eq_true, ih]
      rw [List.infix_cons_iff]
      simp

theorem headD_pySplitF {sep : List Char} (hsep : sep ≠ []) :
    ∀ (fuel : Nat) (s : List Char), s.length ≤ fuel →
      (pySplitF sep fuel s).headD [] = beforeFirst sep s := by
  intro fuel
  induction fuel with
  | zero =>
      intro s hs
      have : s = [] := List.length_eq_zero.mp (Nat.le_zero.mp hs)
      subst this
      simp [pySplitF, beforeFirst]
  | succ n ih =>
      intro s hs
      by_cases h : sep ≠ [] ∧ sep.isPrefixOf s
      · cases s with
        | nil =>
            obtain ⟨x, xs, hx⟩ := List.exists_cons_of_ne_nil hsep
            subst hx
            simp [List.isPrefixOf] at h
        | cons c t =>
            simp only [pySplitF, if_pos h, List.headD_cons]
            simp only [beforeFirst]
            rw [if_pos h]
      · cases s with
        | nil => simp [pySplitF, h, beforeFirst]
        | cons c t =>
            simp only [pySplitF]
            rw [if_neg h]
            obtain ⟨u, us, hrec⟩ :=
              List.exists_cons_of_ne_nil (pySplitF_ne_nil sep n t)
            have ht : t.length ≤ n := by
              simpa using hs
            have hu : u = beforeFirst sep t := by
              have := ih t ht
              rw [hrec] at this
              simpa using this
            simp only [beforeFirst]
            rw [if_neg h, hrec, hu]
            simp

theorem pySplitF_of_not_contains {sep : List Char} :
    ∀ (fuel : Nat) (s : List Char), pyContains sep s = false →
      pySplitF sep fuel s = [s] := by
  intro fuel
  induction fuel with
  | zero => intro s _; rfl
  | succ n ih =>
      intro s hc
      have hpre : sep.isPrefixOf s = false := isPrefixOf_of_ne_not_contains hc
      have h : ¬(sep ≠ [] ∧ sep.isPrefixOf s) := by
        simp [hpre]
      cases s with
      | nil => simp [pySplitF, h]
      | cons c t =>
          have hct : pyContains sep t = false := by
            simp only [pyContains, Bool.or_eq_false_iff] at hc
            exact hc.2
          simp only [pySplitF]
          rw [if_neg h, ih t hct]

theorem pySplitF_two {sep : List Char} (hsep : sep ≠ []) :
    ∀ (fuel : Nat) (s : List Char), s.length ≤ fuel →
      pyContains sep s = true →
      ∃ u us, pySplitF sep fuel s = u :: us ∧ us ≠ [] := by
  intro fuel
  induction fuel with
  | zero =>
      intro s hs hc
      have : s = [] := List.length_eq_zero.mp (Nat.le_zero.mp hs)
      subst this
      obtain ⟨x, xs, hx⟩ := List.exists_cons_of_ne_nil hsep
      subst hx
      simp [pyContains, List.isPrefixOf] at hc
  | succ n ih =>
      intro s hs hc
      by_cases h : sep ≠ [] ∧ sep.isPrefixOf s
      · refine ⟨[], pySplitF sep n (s.drop sep.length), ?_, ?_⟩
        · simp [pySplitF, h]
        · exact pySplitF_ne_nil sep n _
      · cases s with
        | nil =>
            obtain ⟨x, xs, hx⟩ := List.exists_cons_of_ne_nil hsep
            subst hx
            simp [pyContains, List.isPrefixOf] at hc
        | cons c t =>
            have hpre : sep.isPrefixOf (c :: t) = false := by
              by_contra hb
              exact h ⟨hsep, by simpa using hb⟩
            have hct : pyContains sep t = true := by
              simpa [pyContains, hpre] using hc
            have ht : t.length ≤ n := by
              simpa using hs
            obtain ⟨u, us, hrec, hus⟩ := ih t ht hct
            refine ⟨c :: u, us, ?_, hus⟩
            simp only [pySplitF]
            rw [if_neg h, hrec]

theorem getLastD_irrel {α : Type} {l : List α} (h : l ≠ []) (d₁ d₂ : α) :
    l.getLastD d₁ = l.getLastD d₂ := by
  cases l with
  | nil => exact absurd rfl h
  | cons x xs => rw [List.getLastD_cons, List.getLastD_cons]

theorem pySplitF_last_decomp {sep : List Char} (hsep : sep ≠ []) :
    ∀ (fuel : Nat) (s : List Char), s.length ≤ fuel →
      pyContains sep s = true →
      ∃ a, s = a ++ sep ++ ((pySplitF sep fuel s).getLastD []) ∧
        pyContains sep ((pySplitF sep fuel s).getLastD []) = false := by
  intro fuel
  induction fuel with
  | zero =>
      intro s hs hc
      have : s = [] := List.length_eq_zero.mp (Nat.le_zero.mp hs)
      subst this
      obtain ⟨x, xs, hx⟩ := List.exists_cons_of_ne_nil hsep
      subst hx
      simp [pyContains, List.isPrefixOf] at hc
  | succ n ih =>
      intro s hs hc
      by_cases h : sep ≠ [] ∧ sep.isPrefixOf s
      · obtain ⟨d, hd⟩ := prefix_of_isPrefixOf h.2
        have hdrop : s.drop sep.length = d := by
          rw [← hd]
          exact List.drop_left sep d
        have hlen : d.length ≤ n := by
          obtain ⟨x, xs, hx⟩ := List.exists_cons_of_ne_nil hsep
          have : s.length = sep.length + d.length := by
            rw [← hd]; simp
          rw [this] at hs
          subst hx
          simp at hs
          omega
        have hstep : pySplitF sep (n + 1) s =
            [] :: pySplitF sep n d := by
          simp only [pySplitF]
          rw [if_pos h, hdrop]
        by_cases hcd : pyContains sep d = true
        · obtain ⟨a', ha', hlast⟩ := ih d hlen hcd
          have hGL : (pySplitF sep (n + 1) s).getLastD [] =
              (pySplitF sep n d).getLastD [] := by
            rw [hstep, List.getLastD_cons]
          refine ⟨sep ++ a', ?_, ?_⟩
          · rw [hGL]
            conv_lhs => rw [← hd, ha']
            simp
          · rw [hGL]
            exact hlast
        · have hcd' : pyContains sep d = false := by
            simpa using hcd
          rw [hstep, pySplitF_of_not_contains n d hcd']
          refine ⟨[], ?_, hcd'⟩
          simp [← hd]
      · cases s with
        | nil =>
            obtain ⟨x, xs, hx⟩ := List.exists_cons_of_ne_nil hsep
            subst hx
            simp [pyContains, List.isPrefixOf] at hc
        | cons c t =>
            have hpre : sep.isPrefixOf (c :: t) = false := by
              by_contra hb
              exact h ⟨hsep, by simpa using hb⟩
            have hct : pyContains sep t = true := by
              simpa [pyContains, hpre] using hc
            have ht : t.length ≤ n := by
              simpa using hs
            obtain ⟨u, us, hrec, hus⟩ := pySplitF_two hsep n t ht hct
            have hstep : pySplitF sep (n + 1) (c :: t) =
                (c :: u) :: us := by
              simp only [pySplitF]
              rw [if_neg h, hrec]
            have hlasts : ((c :: u) :: us).getLastD [] =
                (pySplitF sep n t).getLastD [] := by
              rw [hrec, List.getLastD_cons, List.getLastD_cons]
              exact getLastD_irrel hus _ _
            obtain ⟨a', ha', hlast⟩ := ih t ht hct
            refine ⟨c :: a', ?_, ?_⟩
            · rw [hstep, hlasts]
              conv_lhs => rw [ha']
              simp
            · rw [hstep, hlasts]
              exact hlast

theorem pySplit_last_decomp (sep : List Char) (hsep : sep ≠ [])
    (s : List Char) (hc : pyContains sep s = true) :
    ∃ a, s = a ++ sep ++ ((pySplit sep s).getLastD []) ∧
      pyContains sep ((pySplit sep s).getLastD []) = false :=
  pySplitF_last_decomp hsep s.length s le_rfl hc

theorem not_contains_of_isInfix {sep s t : List Char} (hst : t <:+: s)
    (h : pyContains sep s = false) : pyContains sep t = false := by
  by_contra hb
  have ht : pyContains sep t = true := by simpa using hb
  have : pyContains sep s = true :=
    pyContains_iff_isInfix.mpr ((pyContains_iff_isInfix.mp ht).trans hst)
  simp [this] at h

theorem pyContains_tail {sep : List Char} {c : Char} {t : List Char}
    (h : pyContains sep (c :: t) = false) : pyContains sep t = false := by
  simp only [pyContains, Bool.or_eq_false_iff] at h
  exact h.2

theorem removeThinkF_id :
    ∀ (fuel : Nat) (l : List Char), pyContains thinkOpen l = false →
      pyContains thinkClose l = false → removeThinkF fuel l = l := by
  intro fuel
  induction fuel with
  | zero => intro l _ _; rfl
  | succ n ih =>
      intro l ho hc
      cases l with
      | nil => rfl
      | cons c t =>
          have h1 : thinkClose.isPrefixOf (c :: t) = false :=
            isPrefixOf_of_ne_not_contains hc
          have h2 : thinkOpen.isPrefixOf (c :: t) = false :=
            isPrefixOf_of_ne_not_contains ho
          simp only [removeThinkF, h1, h2, Bool.false_eq_true, if_false]
          rw [ih t (pyContains_tail ho) (pyContains_tail hc)]

theorem cleanQuery_no_fence (content : List Char) :
    pyContains sqlFence (cleanQuery content) = false := by
  by_cases hc : pyContains sqlFence content = true
  · obtain ⟨a, hdecomp, hnb⟩ :=
      pySplit_last_decomp sqlFence (by decide) content hc
    have hres : cleanQuery content =
        pyStrip ((pySplit fence ((pySplit sqlFence content).getLastD [])).headD
          []) := by
      unfold cleanQuery
      rw [if_pos hc]
    set b := (pySplit sqlFence content).getLastD [] with hb
    have hhead : (pySplit fence b).headD [] = beforeFirst fence b :=
      headD_pySplitF (by decide) b.length b le_rfl
    have hinf : pyStrip (beforeFirst fence b) <:+: b :=
      (pyStrip_isInfix _).trans (beforeFirst_isPre fence b).isInfix
    rw [hres, hhead]
    exact not_contains_of_isInfix hinf hnb
  · have hc' : pyContains sqlFence content = false := by simpa using hc
    have hres : cleanQuery content = pyStrip content := by
      unfold cleanQuery
      rw [if_neg (by simp [hc'])]
    rw [hres]
    exact not_contains_of_isInfix (pyStrip_isInfix content) hc'

theorem headD_pySplit {sep : List Char} (hsep : sep ≠ []) (s : List Char) :
    (pySplit sep s).headD [] = beforeFirst sep s :=
  headD_pySplitF hsep s.length s le_rfl

theorem pyTruthy_eq_false {x : Option (List Char)} :
    pyTruthy x = false ↔ (x = none ∨ x = some []) := by
  cases x with
  | none => simp [pyTruthy]
  | some s => cases s <;> simp [pyTruthy]

end SqlAgent

namespace Demo

open SqlAgent

/-- A model response holding two complete ```sql fenced blocks. -/
def twoBlocks : List Char := "```sql\nA\n``` and ```sql\nB\n```".data

/-- Agent oracles whose structured attempt succeeds with a query that still
carries a fence marker. -/
def oStructFence : Agent.Oracles where
  structured := fun _ => .ok "```sql SELECT 1; ```".data
  freeContent := fun _ => []
  dbExec := fun _ => .ok []
  answerLLM := fun _ => .ok []

/-- Agent oracles whose database tool raises. -/
def oDbFail : Agent.Oracles where
  structured := fun _ => .ok "SELECT 1".data
  freeContent := fun _ => []
  dbExec := fun _ => .error "boom".data
  answerLLM := fun _ => .ok "the answer".data

/-- Agent oracles whose structured attempt raises, with a fenced free-text
fallback response. -/
def oStructFail : Agent.Oracles where
  structured := fun _ => .error "decode error".data
  freeContent := fun _ => "```sql\nSELECT 42\n```".data
  dbExec := fun _ => .ok "[(42,)]".data
  answerLLM := fun _ => .ok "42".data

/-- Agent oracles whose answer-stage model invocation raises. -/
def oAnsFail : Agent.Oracles where
  structured := fun _ => .ok "SELECT 1".data
  freeContent := fun _ => []
  dbExec := fun _ => .error "no such table".data
  answerLLM := fun _ => .error "rate limit".data

/-- Fully healthy agent oracles. -/
def oGood : Agent.Oracles where
  structured := fun _ => .ok "SELECT COUNT(*) FROM Employee".data
  freeContent := fun _ => []
  dbExec := fun _ => .ok "[(8,)]".data
  answerLLM := fun _ => .ok "There are 8 employees.".data

/-- Web oracles whose SQL-generation model invocation raises. -/
def oWebGenFail : App.Oracles where
  llmSql := fun _ => .error "rate limit".data
  dbExec := fun _ => .ok "[(8,)]".data
  llmAnswer := fun _ => .ok "There are 8 employees.".data

/-- Web oracles whose query executes successfully with an empty textual
result. -/
def oWebEmpty : App.Oracles where
  llmSql := fun _ => .ok "SELECT 1".data
  dbExec := fun _ => .ok []
  llmAnswer := fun _ => .ok "unused".data

/-- Fully healthy web oracles. -/
def oWebGood : App.Oracles where
  llmSql := fun _ => .ok "```sql\nSELECT COUNT(*) FROM Employee\n```".data
  dbExec := fun _ => .ok "[(8,)]".data
  llmAnswer := fun _ => .ok "There are 8 employees.".data

end Demo

section Claims

open SqlAgent

/-- C1, counterexample: on a response holding two ```sql fenced blocks the
fallback free-text mode returns the enclosed text of the LAST block
(`"B"`), not of the first block (`"A"`) as the claim states. -/
theorem c1_counterexample :
    cleanQuery Demo.twoBlocks = "B".data ∧
    firstBlockQuery Demo.twoBlocks = "A".data ∧
    cleanQuery Demo.twoBlocks ≠ firstBlockQuery Demo.twoBlocks := by
  decide

/-- C1 (amended): in the fallback free-text mode, if the response contains
at least one ```sql marker, the returned query is the text strictly
between the LAST ```sql marker and the next following ``` (or the end of
the response), trimmed: the response decomposes as `a ++ "```sql" ++ b`
with no further ```sql marker in `b`, and the returned query is `b` up to
its first ``` marker, trimmed.  Otherwise the returned query is the full
response text, trimmed, verbatim. -/
theorem c1_fallback_extraction (content : List Char) :
    (pyContains sqlFence content = true →
      ∃ a b, content = a ++ sqlFence ++ b ∧
        pyContains sqlFence b = false ∧
        cleanQuery content = pyStrip (beforeFirst fence b)) ∧
    (pyContains sqlFence content = false →
      cleanQuery content = pyStrip content) := by
  constructor
  · intro hc
    obtain ⟨a, hdec, hnb⟩ :=
      pySplit_last_decomp sqlFence (by decide) content hc
    refine ⟨a, (pySplit sqlFence content).getLastD [], hdec, hnb, ?_⟩
    unfold cleanQuery
    rw [if_pos hc]
    rw [headD_pySplit (by decide)]
  · intro hc
    unfold cleanQuery
    rw [if_neg (by simp [hc])]

/-- C1, witness for the amended theorem at the two-block response. -/
theorem c1_witness :
    pyContains sqlFence Demo.twoBlocks = true ∧
    (∃ a b, Demo.twoBlocks = a ++ sqlFence ++ b ∧
      pyContains sqlFence b = false ∧
      cleanQuery Demo.twoBlocks = pyStrip (beforeFirst fence b)) ∧
    pyContains sqlFence "SELECT 1".data = false ∧
    cleanQuery "SELECT 1".data = pyStrip "SELECT 1".data :=
  ⟨by decide, (c1_fallback_extraction Demo.twoBlocks).1 (by decide),
    by decide, (c1_fallback_extraction "SELECT 1".data).2 (by decide)⟩

/-- C2, counterexample: in the structured-output mode the `query` field is
returned verbatim, so a model output whose `query` field carries a ```sql
marker yields a synthesizer result that still contains the marker. -/
theorem c2_counterexample :
    pyContains sqlFence (Agent.writtenQuery Demo.oStructFence "q".data) =
      true := by
  decide

/-- C2 (amended): the query text produced by the free-text fallback mode
never contains a ```sql fence marker; the structured-output mode returns
the model's `query` field verbatim, without stripping fences. -/
theorem c2_fallback_no_fence :
    (∀ content, pyContains sqlFence (cleanQuery content) = false) ∧
    (∀ (o : Agent.Oracles) (q v : List Char),
      o.structured q = .ok v → Agent.writtenQuery o q = v) := by
  refine ⟨cleanQuery_no_fence, ?_⟩
  intro o q v h
  unfold Agent.writtenQuery
  rw [h]

/-- C2, witness: the fallback result of a fenced response has no marker,
and a concrete structured success is passed through verbatim. -/
theorem c2_witness :
    pyContains sqlFence (cleanQuery Demo.twoBlocks) = false ∧
    Agent.writtenQuery Demo.oStructFence "q".data =
      "```sql SELECT 1; ```".data :=
  ⟨c2_fallback_no_fence.1 Demo.twoBlocks,
    c2_fallback_no_fence.2 Demo.oStructFence "q".data _ rfl⟩

/-- C3: whenever the database tool raises, `execute_query` returns the
result string `"Error executing query: "` followed by the exception's
message (it never raises), and the pipeline continues to the answer stage
using exactly this error text as the result of the prompt it builds. -/
theorem c3_execute_error_flows (o : Agent.Oracles) (q e : List Char)
    (h : o.dbExec (Agent.writtenQuery o q) = .error e) :
    (Agent.runPipeline o q).result =
      some ("Error executing query: ".data ++ e) ∧
    (Agent.runPipeline o q).answer =
      some (Agent.answerText o q (Agent.writtenQuery o q)
        ("Error executing query: ".data ++ e)) := by
  constructor <;>
    simp [Agent.runPipeline, Agent.write_query, Agent.execute_query,
      Agent.generate_answer, Agent.initState, Agent.executedResult, h]

/-- C3, witness: a concrete run whose database tool raises `boom`. -/
theorem c3_witness :
    Demo.oDbFail.dbExec (Agent.writtenQuery Demo.oDbFail "how many".data) =
      .error "boom".data ∧
    ((Agent.runPipeline Demo.oDbFail "how many".data).result =
        some ("Error executing query: ".data ++ "boom".data) ∧
      (Agent.runPipeline Demo.oDbFail "how many".data).answer =
        some (Agent.answerText Demo.oDbFail "how many".data
          (Agent.writtenQuery Demo.oDbFail "how many".data)
          ("Error executing query: ".data ++ "boom".data))) :=
  ⟨rfl, c3_execute_error_flows Demo.oDbFail "how many".data "boom".data rfl⟩

/-- C4: the structured-output mode is attempted first; the fallback is
invoked exactly once when and only when the structured attempt raises, the
fallback's result is the returned query, a structured success is returned
as the `query` field without invoking the fallback, and a structured
failure still yields a populated query in the full pipeline rather than
aborting it. -/
theorem c4_structured_first (o : Agent.Oracles) (q : List Char) :
    (∀ v, o.structured q = .ok v → Agent.writeQueryTrace o q = (v, 0)) ∧
    (∀ e, o.structured q = .error e →
      Agent.writeQueryTrace o q = (cleanQuery (o.freeContent q), 1)) ∧
    Agent.writtenQuery o q = (Agent.writeQueryTrace o q).1 ∧
    (∀ e, o.structured q = .error e →
      (Agent.runPipeline o q).query =
        some (cleanQuery (o.freeContent q))) := by
  refine ⟨?_, ?_, ?_, ?_⟩
  · intro v h
    unfold Agent.writeQueryTrace
    rw [h]
  · intro e h
    unfold Agent.writeQueryTrace
    rw [h]
  · unfold Agent.writtenQuery Agent.writeQueryTrace
    cases o.structured q <;> rfl
  · intro e h
    simp [Agent.runPipeline, Agent.write_query, Agent.execute_query,
      Agent.generate_answer, Agent.initState, Agent.writtenQuery, h]

/-- C4, witness: a concrete structured failure falls back exactly once and
a concrete structured success never invokes the fallback. -/
theorem c4_witness :
    Demo.oStructFail.structured "q".data = .error "decode error".data ∧
    Agent.writeQueryTrace Demo.oStructFail "q".data =
      (cleanQuery (Demo.oStructFail.freeContent "q".data), 1) ∧
    Demo.oGood.structured "q".data =
      .ok "SELECT COUNT(*) FROM Employee".data ∧
    Agent.writeQueryTrace Demo.oGood "q".data =
      ("SELECT COUNT(*) FROM Employee".data, 0) :=
  ⟨rfl,
    (c4_structured_first Demo.oStructFail "q".data).2.1 _ rfl,
    rfl,
    (c4_structured_first Demo.oGood "q".data).1 _ rfl⟩

/-- C5, counterexample: the web-page variant of the Answer Synthesizer
returns absent (`None`) on model invocation failure, not the string
`"Error generating answer: <message>"`. -/
theorem c5_counterexample :
    App.generate_answer (Except.error "boom".data) = none ∧
    App.generate_answer (Except.error "boom".data) ≠
      some ("Error generating answer: ".data ++ "boom".data) := by
  decide

/-- C5 (amended): the Answer Synthesizer never raises to its caller.  The
agent variant always returns non-absent answer text and on model
invocation failure returns `"Error generating answer: "` followed by the
exception's message; the web-page variant returns the cleaned non-absent
text on model success but returns absent (`None`) on model invocation
failure. -/
theorem c5_answer_stage_totality :
    (∀ (o : Agent.Oracles) (s : Agent.State),
      (Agent.generate_answer o s).answer =
        some (Agent.answerText o s.question (s.query.getD [])
          (s.result.getD []))) ∧
    (∀ (o : Agent.Oracles) (s : Agent.State) (e : List Char),
      o.answerLLM (Agent.answerPrompt s.question (s.query.getD [])
        (s.result.getD [])) = .error e →
      (Agent.generate_answer o s).answer =
        some ("Error generating answer: ".data ++ e)) ∧
    (∀ content, App.generate_answer (.ok content) =
      some (pyStrip (removeThink content))) ∧
    (∀ e, App.generate_answer (.error e) = none) := by
  refine ⟨fun o s => rfl, ?_, fun content => rfl, fun e => rfl⟩
  intro o s e h
  simp [Agent.generate_answer, Agent.answerText, h]

/-- C5, witness: a concrete state whose result is itself an error message
and whose answer-stage model invocation raises. -/
theorem c5_witness :
    Demo.oAnsFail.answerLLM (Agent.answerPrompt "q".data
      ((some "SELECT 1".data).getD [])
      ((some "Error executing query: no such table".data).getD [])) =
      .error "rate limit".data ∧
    (Agent.generate_answer Demo.oAnsFail
      ⟨"q".data, some "SELECT 1".data,
        some "Error executing query: no such table".data, none⟩).answer =
      some ("Error generating answer: ".data ++ "rate limit".data) :=
  ⟨rfl, c5_answer_stage_totality.2.1 Demo.oAnsFail
    ⟨"q".data, some "SELECT 1".data,
      some "Error executing query: no such table".data, none⟩
    "rate limit".data rfl⟩

/-- C6, counterexample: removing the literal tags in a single pass can
juxtapose surrounding text into a new `<think>` occurrence, so the
returned answer of the web-page Answer Synthesizer can still contain the
substring `<think>`. -/
theorem c6_counterexample :
    App.generate_answer (Except.ok "<th<think>ink>".data) =
      some "<think>".data ∧
    pyContains thinkOpen "<think>".data = true := by
  decide

/-- C6 (amended): the returned answer is the response content with the
literal `<think>`/`</think>` tags removed in one left-to-right pass and
then trimmed; the removal can itself juxtapose a new tag occurrence, so
the answer is only guaranteed to contain no `<think>`/`</think>` when the
response content contains no such marker, in which case the answer is
exactly the trimmed content. -/
theorem c6_think_tag_removal :
    (∀ content, App.generate_answer (Except.ok content) =
      some (pyStrip (removeThink content))) ∧
    (∀ content, pyContains thinkOpen content = false →
      pyContains thinkClose content = false →
      App.generate_answer (Except.ok content) = some (pyStrip content) ∧
      pyContains thinkOpen (pyStrip content) = false ∧
      pyContains thinkClose (pyStrip content) = false) := by
  refine ⟨fun content => rfl, ?_⟩
  intro content ho hc
  have hid : removeThink content = content := removeThinkF_id _ _ ho hc
  refine ⟨?_, not_contains_of_isInfix (pyStrip_isInfix content) ho,
    not_contains_of_isInfix (pyStrip_isInfix content) hc⟩
  simp [App.generate_answer, removeThink] at hid ⊢
  rw [hid]

/-- C6, witness: a tag-free model response is returned trimmed and without
tags. -/
theorem c6_witness :
    pyContains thinkOpen " There are 8 employees. ".data = false ∧
    pyContains thinkClose " There are 8 employees. ".data = false ∧
    (App.generate_answer (Except.ok " There are 8 employees. ".data) =
        some (pyStrip " There are 8 employees. ".data) ∧
      pyContains thinkOpen (pyStrip " There are 8 employees. ".data) =
        false ∧
      pyContains thinkClose (pyStrip " There are 8 employees. ".data) =
        false) :=
  ⟨by decide, by decide,
    c6_think_tag_removal.2 " There are 8 employees. ".data (by decide)
      (by decide)⟩

/-- C7: each pipeline stage writes only its own state field (`write_query`
only `query`, `execute_query` only `result`, `generate_answer` only
`answer`), the question is never mutated, and along a run fields are
populated strictly left-to-right with every already-set field preserved by
every later stage. -/
theorem c7_frame_conditions (o : Agent.Oracles) (s : Agent.State)
    (q : List Char) :
    ((Agent.write_query o s).question = s.question ∧
      (Agent.write_query o s).result = s.result ∧
      (Agent.write_query o s).answer = s.answer) ∧
    ((Agent.execute_query o s).question = s.question ∧
      (Agent.execute_query o s).query = s.query ∧
      (Agent.execute_query o s).answer = s.answer) ∧
    ((Agent.generate_answer o s).question = s.question ∧
      (Agent.generate_answer o s).query = s.query ∧
      (Agent.generate_answer o s).result = s.result) ∧
    ((Agent.write_query o (Agent.initState q)).query.isSome = true ∧
      (Agent.write_query o (Agent.initState q)).result = none ∧
      (Agent.write_query o (Agent.initState q)).answer = none) ∧
    ((Agent.execute_query o (Agent.write_query o
        (Agent.initState q))).query =
      (Agent.write_query o (Agent.initState q)).query ∧
      (Agent.execute_query o (Agent.write_query o
        (Agent.initState q))).result.isSome = true ∧
      (Agent.execute_query o (Agent.write_query o
        (Agent.initState q))).answer = none) ∧
    ((Agent.runPipeline o q).question = q ∧
      (Agent.runPipeline o q).query =
        (Agent.write_query o (Agent.initState q)).query ∧
      (Agent.runPipeline o q).result =
        (Agent.execute_query o (Agent.write_query o
          (Agent.initState q))).result ∧
      (Agent.runPipeline o q).answer.isSome = true) := by
  simp [Agent.write_query, Agent.execute_query, Agent.generate_answer,
    Agent.runPipeline, Agent.initState]

/-- C8: in the human-approval flow the checkpoint persisted at the
interrupt holds a populated `query` and absent `result`/`answer`; on any
rejected approval the two remaining stages never run and both fields stay
absent in the final persisted state. -/
theorem c8_approval_checkpoint (o : Agent.Oracles) (q : List Char) :
    (∀ a, (Agent.human_in_the_loop o q a).checkpoint.query =
        some (Agent.writtenQuery o q) ∧
      (Agent.human_in_the_loop o q a).checkpoint.result = none ∧
      (Agent.human_in_the_loop o q a).checkpoint.answer = none) ∧
    (∀ a, pyLower a ≠ "yes".data →
      (Agent.human_in_the_loop o q a).ranExecute = false ∧
      (Agent.human_in_the_loop o q a).ranAnswer = false ∧
      (Agent.human_in_the_loop o q a).finalState.result = none ∧
      (Agent.human_in_the_loop o q a).finalState.answer = none) := by
  constructor
  · intro a
    unfold Agent.human_in_the_loop
    by_cases h : pyLower a = "yes".data <;>
      simp [h, Agent.write_query, Agent.initState]
  · intro a h
    unfold Agent.human_in_the_loop
    rw [if_neg h]
    simp [Agent.write_query, Agent.initState]

/-- C8, witness: a concrete rejected run. -/
theorem c8_witness :
    ((Agent.human_in_the_loop Demo.oGood "q".data "no".data).checkpoint.query =
        some (Agent.writtenQuery Demo.oGood "q".data) ∧
      (Agent.human_in_the_loop Demo.oGood "q".data
        "no".data).checkpoint.result = none ∧
      (Agent.human_in_the_loop Demo.oGood "q".data
        "no".data).checkpoint.answer = none) ∧
    (pyLower "no".data ≠ "yes".data) ∧
    ((Agent.human_in_the_loop Demo.oGood "q".data "no".data).ranExecute =
        false ∧
      (Agent.human_in_the_loop Demo.oGood "q".data "no".data).ranAnswer =
        false ∧
      (Agent.human_in_the_loop Demo.oGood "q".data
        "no".data).finalState.result = none ∧
      (Agent.human_in_the_loop Demo.oGood "q".data
        "no".data).finalState.answer = none) :=
  ⟨(c8_approval_checkpoint Demo.oGood "q".data).1 "no".data, by decide,
    (c8_approval_checkpoint Demo.oGood "q".data).2 "no".data (by decide)⟩

/-- C9: execution resumes if and only if the operator's input equals
exactly `"yes"` after lowercasing; any other input (including `"y"`,
`"approve"` and `"yes "` with trailing whitespace) runs nothing further
and prints the cancellation message, while `"YES"` lowercases to `"yes"`
and resumes. -/
theorem c9_approval_exact_yes :
    (∀ (o : Agent.Oracles) (q a : List Char),
      ((Agent.human_in_the_loop o q a).ranExecute = true ↔
        pyLower a = "yes".data) ∧
      ((Agent.human_in_the_loop o q a).ranAnswer = true ↔
        pyLower a = "yes".data) ∧
      (pyLower a ≠ "yes".data →
        (Agent.human_in_the_loop o q a).cancelMessage =
          some "Execution cancelled by user.".data)) ∧
    pyLower "y".data ≠ "yes".data ∧
    pyLower "approve".data ≠ "yes".data ∧
    pyLower "yes ".data ≠ "yes".data ∧
    pyLower "YES".data = "yes".data := by
  refine ⟨?_, by decide, by decide, by decide, by decide⟩
  intro o q a
  unfold Agent.human_in_the_loop
  by_cases h : pyLower a = "yes".data <;> simp [h]

/-- C9, witness: concrete approval inputs. -/
theorem c9_witness :
    ((Agent.human_in_the_loop Demo.oGood "q".data "y".data).ranExecute =
        true ↔ pyLower "y".data = "yes".data) ∧
    (pyLower "y".data ≠ "yes".data) ∧
    (Agent.human_in_the_loop Demo.oGood "q".data "y".data).cancelMessage =
      some "Execution cancelled by user.".data :=
  ⟨((c9_approval_exact_yes).1 Demo.oGood "q".data "y".data).1, by decide,
    ((c9_approval_exact_yes).1 Demo.oGood "q".data "y".data).2.2
      (by decide)⟩

/-- C10: in the web-page variant each stage's output is truth-tested
before the next stage runs: an absent or empty generated query means the
query is never executed; an absent or empty execution result (including a
successfully executed query with empty textual result) means the answer
stage never runs; and whenever the answer stage does run, the result it
receives is a non-empty successful tool output, so no error-text result
ever flows into the answer stage in this variant. -/
theorem c10_web_truth_gates (o : App.Oracles) (q : List Char) :
    (App.generate_sql (o.llmSql q) = none ∨
        App.generate_sql (o.llmSql q) = some [] →
      (App.handler o q).ranExecute = false ∧
      (App.handler o q).result = none) ∧
    (App.execute_sql (o.dbExec
        ((App.generate_sql (o.llmSql q)).getD [])) = none ∨
      App.execute_sql (o.dbExec
        ((App.generate_sql (o.llmSql q)).getD [])) = some [] →
      (App.handler o q).ranAnswer = false) ∧
    ((App.handler o q).ranAnswer = true →
      ∃ r, o.dbExec ((App.generate_sql (o.llmSql q)).getD []) = .ok r ∧
        r ≠ [] ∧ (App.handler o q).result = some r ∧
        (App.handler o q).answer =
          App.generate_answer (o.llmAnswer r)) := by
  by_cases hq : q = []
  · subst hq
    refine ⟨fun _ => ⟨rfl, rfl⟩, fun _ => rfl, fun h => ?_⟩
    simp [App.handler] at h
  · refine ⟨?_, ?_, ?_⟩
    · intro h
      have hfalse : pyTruthy (App.generate_sql (o.llmSql q)) = false :=
        pyTruthy_eq_false.mpr h
      simp [App.handler, hq, hfalse]
    · intro h
      have hfalse : pyTruthy (App.execute_sql (o.dbExec
          ((App.generate_sql (o.llmSql q)).getD []))) = false :=
        pyTruthy_eq_false.mpr h
      by_cases hgen : pyTruthy (App.generate_sql (o.llmSql q)) = true
      · simp [App.handler, hq, hgen, hfalse]
      · simp [App.handler, hq, hgen]
    · intro h
      by_cases hgen : pyTruthy (App.generate_sql (o.llmSql q)) = true
      · by_cases hex : pyTruthy (App.execute_sql (o.dbExec
            ((App.generate_sql (o.llmSql q)).getD []))) = true
        · obtain ⟨r, hr⟩ : ∃ r, App.execute_sql (o.dbExec
              ((App.generate_sql (o.llmSql q)).getD [])) = some r := by
            cases hx : App.execute_sql (o.dbExec
                ((App.generate_sql (o.llmSql q)).getD [])) with
            | none => rw [hx] at hex; simp [pyTruthy] at hex
            | some r => exact ⟨r, rfl⟩
          have hrne : r ≠ [] := by
            intro hnil
            subst hnil
            rw [hr] at hex
            simp [pyTruthy] at hex
          have hok : o.dbExec ((App.generate_sql (o.llmSql q)).getD []) =
              .ok r := by
            cases hdb : o.dbExec ((App.generate_sql (o.llmSql q)).getD [])
              with
            | ok v =>
                rw [hdb] at hr
                simp [App.execute_sql] at hr
                rw [hr]
            | error e =>
                rw [hdb] at hr
                simp [App.execute_sql] at hr
          have hex2 : pyTruthy (some r) = true := by
            rw [hr] at hex
            exact hex
          refine ⟨r, hok, hrne, ?_, ?_⟩
          · simp [App.handler, hq, hgen, hr, hex2]
          · simp [App.handler, hq, hgen, hr, hex2]
        · exfalso
          simp [App.handler, hq, hgen, hex] at h
      · exfalso
        simp [App.handler, hq, hgen] at h

/-- C10, witness: a failed generation never executes; an empty successful
result halts before the answer stage; a healthy run feeds the answer
stage the successful non-empty tool output. -/
theorem c10_witness :
    ((App.handler Demo.oWebGenFail "q".data).ranExecute = false ∧
      (App.handler Demo.oWebGenFail "q".data).result = none) ∧
    (App.handler Demo.oWebEmpty "q".data).ranAnswer = false ∧
    (∃ r, Demo.oWebGood.dbExec
        ((App.generate_sql (Demo.oWebGood.llmSql "q".data)).getD []) =
          .ok r ∧
      r ≠ [] ∧ (App.handler Demo.oWebGood "q".data).result = some r ∧
      (App.handler Demo.oWebGood "q".data).answer =
        App.generate_answer (Demo.oWebGood.llmAnswer r)) :=
  ⟨(c10_web_truth_gates Demo.oWebGenFail "q".data).1 (Or.inl rfl),
    (c10_web_truth_gates Demo.oWebEmpty "q".data).2.1 (Or.inr rfl),
    (c10_web_truth_gates Demo.oWebGood "q".data).2.2 (by decide)⟩

end Claims

section SanityChecks

open SqlAgent

example : pySplit ",".data "a,b".data = ["a".data, "b".data] := by decide

example : cleanQuery "```sql\nSELECT 1\n```".data = "SELECT 1".data := by decide

example :
    cleanQuery "```sql\nA\n``` and ```sql\nB\n```".data = "B".data := by decide

example : cleanQuery "  SELECT 2  ".data = "SELECT 2".data := by decide

example : removeThink "a<think>b</think>c".data = "abc".data := by decide

example : removeThink "<th<think>ink>".data = "<think>".data := by decide

end SanityChecks
